import Mathlib

/-!
Shallow embedding of the observability-playground demo services.

The repository contains four Go program variants:
* an untraced demo app (`src/app/main.go`, first program): four plain handlers;
* a traced demo app (`src/app/main.go`, second program): the same handlers
  wrapped with span creation, plus a periodic dummy-request generator;
* a receiver service (`src/receiver/main.go`): traced handlers on port 8081;
* a sender service (embedded in `src/docker-compose.yml`): no HTTP handlers,
  only tracer initialisation, a 5-second periodic generator and a busy loop.

Go's global `math/rand` source is modelled as an abstract stream of raw
draws together with a cursor; `rand.Intn n` returns the next raw draw
reduced modulo `n` and advances the cursor.  `http.ResponseWriter` is
modelled by `RespWriter`: an explicit `WriteHeader` fixes the status once,
and a body write with no status yet written commits the implicit 200.
Wall-clock time is a natural-number millisecond clock that only the
modelled `time.Sleep` advances; a span records the clock at `tracer.Start`
and at the deferred `span.End()`.
-/

/-- Abstract state of Go's seeded global `math/rand` source: an infinite
stream of raw draws and the index of the next one. -/
structure RandState where
  stream : Nat → Nat
  idx : Nat

/-- Model of `rand.Intn n`: consume the next raw draw, reduce it modulo `n`,
and advance the source. -/
def randIntn (n : Nat) (st : RandState) : Nat × RandState :=
  (st.stream st.idx % n, ⟨st.stream, st.idx + 1⟩)

/-- An HTTP request as the handlers see it: they only ever inspect the
method and the URL path (for logging). -/
structure Request where
  method : String
  path : String
deriving DecidableEq

/-- The final HTTP response observed by the caller. -/
structure Response where
  status : Nat
  body : String
deriving DecidableEq

/-- Model of Go's `http.ResponseWriter` protocol: the first explicit
`WriteHeader` fixes the status; a body write before any `WriteHeader`
commits the implicit 200. -/
structure RespWriter where
  statusWritten : Option Nat
  body : String
deriving DecidableEq

def RespWriter.empty : RespWriter := ⟨none, ""⟩

def RespWriter.writeHeader (w : RespWriter) (code : Nat) : RespWriter :=
  match w.statusWritten with
  | none => ⟨some code, w.body⟩
  | some c => ⟨some c, w.body⟩

def RespWriter.write (w : RespWriter) (s : String) : RespWriter :=
  ⟨some (w.statusWritten.getD 200), w.body ++ s⟩

def RespWriter.finish (w : RespWriter) : Response :=
  ⟨w.statusWritten.getD 200, w.body⟩

/-- A completed span: name, start/end clock readings (milliseconds) and the
string attributes attached with `SetAttributes`. -/
structure Span where
  name : String
  startTime : Nat
  endTime : Nat
  attrs : List (String × String)
deriving DecidableEq

/-- Everything observable about one completed handler invocation: the
response, the spans the handler body emitted, how long it slept, the total
wall-clock time it took, the random source it left behind, and its log
lines. -/
structure HandlerResult where
  response : Response
  spans : List Span
  sleptMs : Nat
  elapsedMs : Nat
  rand : RandState
  logs : List String

/-- The four routes registered by every HTTP-serving variant. -/
inductive Route
  | home
  | health
  | slow
  | error
deriving DecidableEq

namespace App

/-- Untraced `homeHandler` (`src/app/main.go`, first program): log, then
write the greeting; no explicit status, so the implicit 200 commits. -/
def homeHandler (r : Request) (st : RandState) : HandlerResult :=
  let w := RespWriter.empty.write "Hello, World! 모니터링 테스트 서버입니다.\n"
  { response := w.finish, spans := [], sleptMs := 0, elapsedMs := 0, rand := st,
    logs := ["홈페이지 요청: " ++ r.method ++ " " ++ r.path] }

/-- Untraced `healthHandler`: explicit `WriteHeader(http.StatusOK)` then the
fixed status string. -/
def healthHandler (r : Request) (st : RandState) : HandlerResult :=
  let w := (RespWriter.empty.writeHeader 200).write "상태: 정상\n"
  { response := w.finish, spans := [], sleptMs := 0, elapsedMs := 0, rand := st,
    logs := ["상태 확인 요청: " ++ r.method ++ " " ++ r.path] }

/-- Untraced `slowResponseHandler`: `delay := 100 + rand.Intn(1900)`, sleep
`delay` milliseconds, report the delay in the body. -/
def slowResponseHandler (r : Request) (st : RandState) : HandlerResult :=
  let p := randIntn 1900 st
  let delay := 100 + p.1
  let w := RespWriter.empty.write ("느린 응답 완료! 지연 시간: " ++ toString delay ++ " ms\n")
  { response := w.finish, spans := [], sleptMs := delay, elapsedMs := delay, rand := p.2,
    logs := ["느린 응답 요청: " ++ r.method ++ " " ++ r.path] }

/-- Untraced `errorHandler`: if `rand.Intn(5) == 0` then 500 with the error
body, otherwise the implicit 200 with the success body. -/
def errorHandler (r : Request) (st : RandState) : HandlerResult :=
  let p := randIntn 5 st
  if p.1 = 0 then
    let w := (RespWriter.empty.writeHeader 500).write "내부 서버 오류가 발생했습니다!\n"
    { response := w.finish, spans := [], sleptMs := 0, elapsedMs := 0, rand := p.2,
      logs := ["에러 발생 요청: " ++ r.method ++ " " ++ r.path, "500 에러 발생"] }
  else
    let w := RespWriter.empty.write "이번에는 에러가 발생하지 않았습니다!\n"
    { response := w.finish, spans := [], sleptMs := 0, elapsedMs := 0, rand := p.2,
      logs := ["에러 발생 요청: " ++ r.method ++ " " ++ r.path] }

/-- Route dispatch of the untraced app's multiplexer. -/
def handle : Route → Request → RandState → HandlerResult
  | .home => homeHandler
  | .health => healthHandler
  | .slow => slowResponseHandler
  | .error => errorHandler

end App

namespace AppTraced

/-- Traced `homeHandler` (`src/app/main.go`, second program): open span
`home-handler` at entry, set the `http.method` attribute, write the
greeting; the deferred `span.End()` closes at exit. -/
def homeHandler (r : Request) (st : RandState) (t0 : Nat) : HandlerResult :=
  let w := RespWriter.empty.write "Hello, World! 모니터링 테스트 서버입니다.\n"
  { response := w.finish,
    spans := [⟨"home-handler", t0, t0, [("http.method", r.method)]⟩],
    sleptMs := 0, elapsedMs := 0, rand := st,
    logs := ["홈페이지 요청: " ++ r.method ++ " " ++ r.path] }

/-- Traced `healthHandler`: span `health-handler`, explicit 200, fixed status
string. -/
def healthHandler (r : Request) (st : RandState) (t0 : Nat) : HandlerResult :=
  let w := (RespWriter.empty.writeHeader 200).write "상태: 정상\n"
  { response := w.finish,
    spans := [⟨"health-handler", t0, t0, []⟩],
    sleptMs := 0, elapsedMs := 0, rand := st,
    logs := ["상태 확인 요청: " ++ r.method ++ " " ++ r.path] }

/-- Traced `slowResponseHandler`: span `slow-handler`, `delay := 100 +
rand.Intn(1900)` recorded as the `delay_ms` attribute, sleep advances the
clock by `delay`, so the deferred `span.End()` closes at `t0 + delay`. -/
def slowResponseHandler (r : Request) (st : RandState) (t0 : Nat) : HandlerResult :=
  let p := randIntn 1900 st
  let delay := 100 + p.1
  let t1 := t0 + delay
  let w := RespWriter.empty.write ("느린 응답 완료! 지연 시간: " ++ toString delay ++ " ms\n")
  { response := w.finish,
    spans := [⟨"slow-handler", t0, t1, [("delay_ms", toString delay)]⟩],
    sleptMs := delay, elapsedMs := delay, rand := p.2,
    logs := ["느린 응답 요청: " ++ r.method ++ " " ++ r.path] }

/-- Traced `errorHandler`: span `error-handler`; if `rand.Intn(5) == 0` set
the `error` attribute and return 500, otherwise the implicit 200. -/
def errorHandler (r : Request) (st : RandState) (t0 : Nat) : HandlerResult :=
  let p := randIntn 5 st
  if p.1 = 0 then
    let w := (RespWriter.empty.writeHeader 500).write "내부 서버 오류가 발생했습니다!\n"
    { response := w.finish,
      spans := [⟨"error-handler", t0, t0, [("error", "true")]⟩],
      sleptMs := 0, elapsedMs := 0, rand := p.2,
      logs := ["에러 발생 요청: " ++ r.method ++ " " ++ r.path, "500 에러 발생"] }
  else
    let w := RespWriter.empty.write "이번에는 에러가 발생하지 않았습니다!\n"
    { response := w.finish,
      spans := [⟨"error-handler", t0, t0, []⟩],
      sleptMs := 0, elapsedMs := 0, rand := p.2,
      logs := ["에러 발생 요청: " ++ r.method ++ " " ++ r.path] }

/-- Route dispatch of the traced app's multiplexer. -/
def handle : Route → Request → RandState → Nat → HandlerResult
  | .home => homeHandler
  | .health => healthHandler
  | .slow => slowResponseHandler
  | .error => errorHandler

/-- Status sequence of repeated `/error` invocations, threading the random
source through the handler; each invocation may carry its own request and
entry time. -/
def errorStatuses (st : RandState) : List (Request × Nat) → List Nat
  | [] => []
  | (r, t) :: rest =>
    let res := errorHandler r st t
    res.response.status :: errorStatuses res.rand rest

end AppTraced

namespace Receiver

/-- Receiver `homeHandler` (`src/receiver/main.go`): span `home-handler`,
`http.method` attribute, receiver-specific greeting. -/
def homeHandler (r : Request) (st : RandState) (t0 : Nat) : HandlerResult :=
  let w := RespWriter.empty.write "수신 서버: Hello, World!\n"
  { response := w.finish,
    spans := [⟨"home-handler", t0, t0, [("http.method", r.method)]⟩],
    sleptMs := 0, elapsedMs := 0, rand := st,
    logs := ["수신: 홈페이지 요청: " ++ r.method ++ " " ++ r.path] }

/-- Receiver `healthHandler`: span `health-handler`, explicit 200,
receiver-specific fixed status string. -/
def healthHandler (r : Request) (st : RandState) (t0 : Nat) : HandlerResult :=
  let w := (RespWriter.empty.writeHeader 200).write "수신 서버: 상태: 정상\n"
  { response := w.finish,
    spans := [⟨"health-handler", t0, t0, []⟩],
    sleptMs := 0, elapsedMs := 0, rand := st,
    logs := ["수신: 상태 확인 요청: " ++ r.method ++ " " ++ r.path] }

/-- Receiver `slowResponseHandler`: identical logic to the app variant. -/
def slowResponseHandler (r : Request) (st : RandState) (t0 : Nat) : HandlerResult :=
  let p := randIntn 1900 st
  let delay := 100 + p.1
  let t1 := t0 + delay
  let w := RespWriter.empty.write ("느린 응답 완료! 지연 시간: " ++ toString delay ++ " ms\n")
  { response := w.finish,
    spans := [⟨"slow-handler", t0, t1, [("delay_ms", toString delay)]⟩],
    sleptMs := delay, elapsedMs := delay, rand := p.2,
    logs := ["느린 응답 요청: " ++ r.method ++ " " ++ r.path] }

/-- Receiver `errorHandler`: identical logic to the app variant. -/
def errorHandler (r : Request) (st : RandState) (t0 : Nat) : HandlerResult :=
  let p := randIntn 5 st
  if p.1 = 0 then
    let w := (RespWriter.empty.writeHeader 500).write "내부 서버 오류가 발생했습니다!\n"
    { response := w.finish,
      spans := [⟨"error-handler", t0, t0, [("error", "true")]⟩],
      sleptMs := 0, elapsedMs := 0, rand := p.2,
      logs := ["에러 발생 요청: " ++ r.method ++ " " ++ r.path, "500 에러 발생"] }
  else
    let w := RespWriter.empty.write "이번에는 에러가 발생하지 않았습니다!\n"
    { response := w.finish,
      spans := [⟨"error-handler", t0, t0, []⟩],
      sleptMs := 0, elapsedMs := 0, rand := p.2,
      logs := ["에러 발생 요청: " ++ r.method ++ " " ++ r.path] }

/-- Route dispatch of the receiver's multiplexer. -/
def handle : Route → Request → RandState → Nat → HandlerResult
  | .home => homeHandler
  | .health => healthHandler
  | .slow => slowResponseHandler
  | .error => errorHandler

end Receiver

/-- Model of the Go pattern `v := os.Getenv(key); if v == "" { v = dflt }`:
the environment maps a variable name to its value, with `""` meaning unset. -/
def getenvOr (env : String → String) (key dflt : String) : String :=
  if env key = "" then dflt else env key

/-- Immutable configuration captured by a successful `initTracer`. -/
structure TracerConfig where
  tempoEndpoint : String
  serviceName : String
  insecure : Bool
  samplerAlways : Bool
deriving DecidableEq

/-- Common `initTracer` of the traced variants: read `TEMPO_ENDPOINT` once
(default `tempo:4317`), make exactly one exporter-construction attempt
(attempt index 0 of the external `otlptrace.New`, whose outcome is the
oracle `mkExporter`), then build the resource (oracle `mkResource`); any
failure is wrapped and returned, with no second attempt and no alternative
transport. -/
def initTracerWith (serviceName : String) (env : String → String)
    (mkExporter : Nat → String → Except String Unit)
    (mkResource : Except String Unit) : Except String TracerConfig :=
  let tempoEndpoint := getenvOr env "TEMPO_ENDPOINT" "tempo:4317"
  match mkExporter 0 tempoEndpoint with
  | .error e => .error ("OTLP exporter 생성 실패: " ++ e)
  | .ok _ =>
    match mkResource with
    | .error e => .error ("리소스 생성 실패: " ++ e)
    | .ok _ => .ok ⟨tempoEndpoint, serviceName, true, true⟩

/-- Observable outcome of the receiver's `main` up to the point where the
listener blocks: either a fatal initialisation error (via `log.Fatalf`,
which exits the process) or a running server; the receiver starts no
periodic generator. -/
structure ReceiverMainResult where
  fatalError : Option String
  serverStarted : Bool
  generatorStarted : Bool
  serverPort : Nat
deriving DecidableEq

namespace Receiver

/-- Receiver `initTracer`: `initTracerWith` at service name
`monitoring-test-receiver`. -/
def initTracer (env : String → String)
    (mkExporter : Nat → String → Except String Unit)
    (mkResource : Except String Unit) : Except String TracerConfig :=
  initTracerWith "monitoring-test-receiver" env mkExporter mkResource

/-- Receiver `main`: on `initTracer` failure, `log.Fatalf` terminates the
process before any handler registration or `ListenAndServe`; on success the
handlers are registered and the server listens on 8081. -/
def main (env : String → String)
    (mkExporter : Nat → String → Except String Unit)
    (mkResource : Except String Unit) : ReceiverMainResult :=
  match initTracer env mkExporter mkResource with
  | .error e => ⟨some ("트레이서 초기화 실패: " ++ e), false, false, 8081⟩
  | .ok _ => ⟨none, true, false, 8081⟩

end Receiver

/-- Outcome of one periodic-generator tick: request construction failed,
the HTTP round trip failed, or a response with some status came back. In
every case the generator function returns normally. -/
inductive TickOutcome
  | buildFailed (msg : String)
  | requestFailed (msg : String)
  | completed (status : Nat)
deriving DecidableEq

/-- Everything observable about one `generateDummyTraces` call of the
sender. -/
structure SenderTickResult where
  spans : List Span
  receiverEndpoint : String
  path : String
  reqURL : String
  outcome : TickOutcome
  logs : List String

/-- The fixed path list of the sender's generator. -/
def senderEndpoints : List String := ["/", "/health"]

namespace Sender

/-- Sender `initTracer`: `initTracerWith` at service name
`monitoring-test-sender`. -/
def initTracer (env : String → String)
    (mkExporter : Nat → String → Except String Unit)
    (mkResource : Except String Unit) : Except String TracerConfig :=
  initTracerWith "monitoring-test-sender" env mkExporter mkResource

/-- Sender `generateDummyTraces` (embedded in `src/docker-compose.yml`):
open span `periodic-dummy-request`; read `RECEIVER_ENDPOINT` from the
environment as it is NOW (default `http://localhost:8081`); pick one of the
two fixed paths with `rand.Intn`; build the GET request (oracle `build`);
on build failure log and return; otherwise set the span attributes and
execute the request (oracle `net`); on failure log and return; otherwise
log the status.  Every branch returns normally. -/
def generateDummyTraces (env : String → String)
    (build : String → Except String Unit)
    (net : String → Except String Nat)
    (st : RandState) (t : Nat) : SenderTickResult × RandState :=
  let receiverEndpoint := getenvOr env "RECEIVER_ENDPOINT" "http://localhost:8081"
  let envLogs : List String :=
    if env "RECEIVER_ENDPOINT" = "" then
      ["RECEIVER_ENDPOINT 환경 변수가 설정되지 않았습니다. 기본값 http://localhost:8081을 사용합니다."]
    else []
  let p := randIntn senderEndpoints.length st
  let path := senderEndpoints.getD p.1 ""
  let reqURL := receiverEndpoint ++ path
  match build reqURL with
  | .error e =>
    ({ spans := [⟨"periodic-dummy-request", t, t, []⟩],
       receiverEndpoint := receiverEndpoint, path := path, reqURL := reqURL,
       outcome := .buildFailed e,
       logs := envLogs ++ ["더미 요청 생성 실패: " ++ e] }, p.2)
  | .ok _ =>
    match net reqURL with
    | .error e =>
      ({ spans := [⟨"periodic-dummy-request", t, t,
           [("dummy.request.url", reqURL), ("dummy.request.type", "periodic")]⟩],
         receiverEndpoint := receiverEndpoint, path := path, reqURL := reqURL,
         outcome := .requestFailed e,
         logs := envLogs ++ ["더미 요청 실패: " ++ e] }, p.2)
    | .ok code =>
      ({ spans := [⟨"periodic-dummy-request", t, t,
           [("dummy.request.url", reqURL), ("dummy.request.type", "periodic")]⟩],
         receiverEndpoint := receiverEndpoint, path := path, reqURL := reqURL,
         outcome := .completed code,
         logs := envLogs ++ ["더미 요청 완료: " ++ path ++ ", 상태: " ++ toString code] }, p.2)

/-- Process state of the sender after startup: the tracer configuration
captured once by `initTracer` and the random source.  No operation after
startup writes `tempoEndpoint`. -/
structure ProcState where
  tempoEndpoint : String
  rand : RandState

/-- Sender startup: run `initTracer` against the startup environment,
capturing `TEMPO_ENDPOINT` exactly once. -/
def startup (env : String → String)
    (mkExporter : Nat → String → Except String Unit)
    (mkResource : Except String Unit) (st : RandState) : Except String ProcState :=
  match initTracer env mkExporter mkResource with
  | .error e => .error e
  | .ok cfg => .ok ⟨cfg.tempoEndpoint, st⟩

/-- One generator tick as seen from the process: run `generateDummyTraces`
against the environment as it is at tick time, threading the random source;
the startup-captured tracer configuration is left untouched. -/
def tick (env : String → String)
    (build : String → Except String Unit)
    (net : String → Except String Nat)
    (s : ProcState) (t : Nat) : ProcState × SenderTickResult :=
  let pr := generateDummyTraces env build net s.rand t
  (⟨s.tempoEndpoint, pr.2⟩, pr.1)

/-- Model of `time.NewTicker(interval)`: the k-th delivery (0-based) of the
ticker channel occurs `interval * (k+1)` after the start. -/
def tickTimes (intervalMs : Nat) (k : Nat) : Nat :=
  intervalMs * (k + 1)

/-- The interval `main` passes to `startPeriodicRequests`: `5 * time.Second`,
in milliseconds. -/
def mainIntervalMs : Nat := 5 * 1000

/-- Delivery time of the k-th tick of the generator started by `main`. -/
def mainTickTime (k : Nat) : Nat :=
  tickTimes mainIntervalMs k

/-- One iteration of the generator goroutine's `for { select }` loop: the
single `case <-ticker.C` runs `generateDummyTraces` (which returns in every
branch) and the loop continues; `none` would mean the loop exits, which no
branch does. -/
def loopStep (env : Nat → String → String)
    (build : String → Except String Unit)
    (net : String → Except String Nat)
    : ProcState × Nat → Option (ProcState × Nat)
  | (s, k) => some ((tick (env k) build net s (mainTickTime k)).1, k + 1)

/-- One iteration of the `for { }` busy loop at the end of the sender's
`main`: the body is empty, there is no break or return, so every step
continues (`none` would mean the loop exits). -/
def busyLoopStep (u : Unit) : Option Unit := some u

/-- Iterating the busy loop n times from its entry. -/
def busyLoopIter : Nat → Option Unit
  | 0 => some ()
  | n + 1 =>
    match busyLoopIter n with
    | some u => busyLoopStep u
    | none => none

/-- The sender's `main` returns normally exactly when its trailing busy
loop exits after finitely many iterations. -/
def mainReturnsNormally : Prop := ∃ n, busyLoopIter n = none

/-- Go defers run when the surrounding function returns; the deferred
`tp.Shutdown` of the sender's `main` therefore executes exactly when `main`
returns normally. -/
def shutdownExecuted : Prop := mainReturnsNormally

/-- What the sender's `main` has done by the time it enters the busy loop
(successful-initialisation path): the periodic generator is started at the
5-second interval, no HTTP server is started, and the start-up log line is
emitted. -/
structure MainRun where
  generatorStarted : Bool
  generatorIntervalMs : Nat
  serverStarted : Bool
deriving DecidableEq

/-- The sender `main`'s state on reaching `for { }`. -/
def mainAfterInit : MainRun :=
  ⟨true, mainIntervalMs, false⟩

end Sender

/-! Shared concrete inputs used by witnesses and counterexamples. -/

/-- A startup environment with nothing set. -/
def envAtStart : String → String := fun _ => ""

/-- An environment after `RECEIVER_ENDPOINT` was changed post-startup. -/
def envChanged : String → String :=
  fun key => if key = "RECEIVER_ENDPOINT" then "http://changed:9999" else ""

/-- A concrete random source (all raw draws zero). -/
def zeroStream : RandState := ⟨fun _ => 0, 0⟩

/-- Request construction that always succeeds. -/
def okBuild : String → Except String Unit := fun _ => .ok ()

/-- A network oracle that always answers 200. -/
def okNet : String → Except String Nat := fun _ => .ok 200

/-! Helper lemmas about the sender's generator, shared by several claims. -/

theorem gdt_receiverEndpoint (env : String → String)
    (build : String → Except String Unit) (net : String → Except String Nat)
    (st : RandState) (t : Nat) :
    (Sender.generateDummyTraces env build net st t).1.receiverEndpoint =
      getenvOr env "RECEIVER_ENDPOINT" "http://localhost:8081" := by
  unfold Sender.generateDummyTraces
  dsimp only
  repeat' split
  all_goals rfl

theorem gdt_spans_length (env : String → String)
    (build : String → Except String Unit) (net : String → Except String Nat)
    (st : RandState) (t : Nat) :
    (Sender.generateDummyTraces env build net st t).1.spans.length = 1 := by
  unfold Sender.generateDummyTraces
  dsimp only
  repeat' split
  all_goals rfl

theorem gdt_path (env : String → String)
    (build : String → Except String Unit) (net : String → Except String Nat)
    (st : RandState) (t : Nat) :
    (Sender.generateDummyTraces env build net st t).1.path =
      senderEndpoints.getD (st.stream st.idx % senderEndpoints.length) "" := by
  unfold Sender.generateDummyTraces randIntn
  dsimp only
  repeat' split
  all_goals rfl

theorem gdt_reqURL (env : String → String)
    (build : String → Except String Unit) (net : String → Except String Nat)
    (st : RandState) (t : Nat) :
    (Sender.generateDummyTraces env build net st t).1.reqURL =
      (Sender.generateDummyTraces env build net st t).1.receiverEndpoint ++
        (Sender.generateDummyTraces env build net st t).1.path := by
  unfold Sender.generateDummyTraces randIntn
  dsimp only
  repeat' split
  all_goals rfl

theorem gdt_path_mem (env : String → String)
    (build : String → Except String Unit) (net : String → Except String Nat)
    (st : RandState) (t : Nat) :
    (Sender.generateDummyTraces env build net st t).1.path ∈ senderEndpoints := by
  rw [gdt_path]
  have h2 : senderEndpoints.length = 2 := rfl
  rw [h2]
  rcases Nat.mod_two_eq_zero_or_one (st.stream st.idx) with h | h <;>
    rw [h] <;> simp [senderEndpoints]

/-- C2: every completed handler invocation of any route in the traced
service variants (traced app and receiver) produces exactly one span from
the handler body, and that span's end timestamp is at least its start
timestamp. -/
theorem c2_one_span_per_invocation (route : Route) (r : Request) (st : RandState) (t0 : Nat) :
    ((AppTraced.handle route r st t0).spans.length = 1 ∧
      ∀ s ∈ (AppTraced.handle route r st t0).spans, s.startTime ≤ s.endTime) ∧
    ((Receiver.handle route r st t0).spans.length = 1 ∧
      ∀ s ∈ (Receiver.handle route r st t0).spans, s.startTime ≤ s.endTime) := by
  cases route <;>
    refine ⟨⟨?_, ?_⟩, ⟨?_, ?_⟩⟩ <;>
    simp only [AppTraced.handle, Receiver.handle, AppTraced.homeHandler,
      AppTraced.healthHandler, AppTraced.slowResponseHandler, AppTraced.errorHandler,
      Receiver.homeHandler, Receiver.healthHandler, Receiver.slowResponseHandler,
      Receiver.errorHandler, randIntn] <;>
    (try split) <;>
    simp

/-- C3: every `/slow` call reports a delay in [100, 2000) determined by the
uniform draw `rand.Intn 1900` (the delay is `100 +` the raw draw reduced
modulo 1900, and every value of the range is attainable), sleeps exactly
that many milliseconds, takes at least that long in wall-clock time, and
answers 200 with a body reporting that delay; this holds in both traced
variants (app and receiver). -/
theorem c3_slow_delay (r : Request) (st : RandState) (t0 : Nat) :
    (100 ≤ 100 + st.stream st.idx % 1900 ∧ 100 + st.stream st.idx % 1900 < 2000) ∧
    ((AppTraced.slowResponseHandler r st t0).response.status = 200 ∧
      (AppTraced.slowResponseHandler r st t0).response.body =
        "느린 응답 완료! 지연 시간: " ++ toString (100 + st.stream st.idx % 1900) ++ " ms\n" ∧
      (AppTraced.slowResponseHandler r st t0).sleptMs = 100 + st.stream st.idx % 1900 ∧
      100 + st.stream st.idx % 1900 ≤ (AppTraced.slowResponseHandler r st t0).elapsedMs) ∧
    ((Receiver.slowResponseHandler r st t0).response.status = 200 ∧
      (Receiver.slowResponseHandler r st t0).response.body =
        "느린 응답 완료! 지연 시간: " ++ toString (100 + st.stream st.idx % 1900) ++ " ms\n" ∧
      (Receiver.slowResponseHandler r st t0).sleptMs = 100 + st.stream st.idx % 1900 ∧
      100 + st.stream st.idx % 1900 ≤ (Receiver.slowResponseHandler r st t0).elapsedMs) ∧
    (∀ d : Fin 1900, ∃ st2 : RandState,
      (AppTraced.slowResponseHandler r st2 t0).sleptMs = 100 + d.val ∧
      (Receiver.slowResponseHandler r st2 t0).sleptMs = 100 + d.val) := by
  refine ⟨⟨Nat.le_add_right _ _, by omega⟩, ⟨rfl, rfl, rfl, ?_⟩, ⟨rfl, rfl, rfl, ?_⟩, ?_⟩
  · simp [AppTraced.slowResponseHandler, randIntn]
  · simp [Receiver.slowResponseHandler, randIntn]
  · intro d
    refine ⟨⟨fun _ => d.val, 0⟩, ?_, ?_⟩ <;>
      simp [AppTraced.slowResponseHandler, Receiver.slowResponseHandler, randIntn,
        Nat.mod_eq_of_lt d.isLt]

/-- C4: every `/error` call draws `rand.Intn 5` (a value in {0,...,4}) and
answers 500 with the error body exactly when the draw is 0, otherwise 200
with the success body; exactly one draw is consumed and the outcome is
returned directly (no retry), in both traced variants. -/
theorem c4_error_outcome (r : Request) (st : RandState) (t0 : Nat) :
    st.stream st.idx % 5 < 5 ∧
    ((AppTraced.errorHandler r st t0).response =
        (if st.stream st.idx % 5 = 0 then ⟨500, "내부 서버 오류가 발생했습니다!\n"⟩
          else ⟨200, "이번에는 에러가 발생하지 않았습니다!\n"⟩) ∧
      (AppTraced.errorHandler r st t0).rand.stream = st.stream ∧
      (AppTraced.errorHandler r st t0).rand.idx = st.idx + 1) ∧
    ((Receiver.errorHandler r st t0).response =
        (if st.stream st.idx % 5 = 0 then ⟨500, "내부 서버 오류가 발생했습니다!\n"⟩
          else ⟨200, "이번에는 에러가 발생하지 않았습니다!\n"⟩) ∧
      (Receiver.errorHandler r st t0).rand.stream = st.stream ∧
      (Receiver.errorHandler r st t0).rand.idx = st.idx + 1) := by
  refine ⟨by omega, ⟨?_, ?_, ?_⟩, ⟨?_, ?_, ?_⟩⟩ <;>
    simp only [AppTraced.errorHandler, Receiver.errorHandler, randIntn] <;>
    split <;>
    simp_all [RespWriter.empty, RespWriter.writeHeader, RespWriter.write, RespWriter.finish]

/-- C8: every `/health` call answers 200 with the variant's fixed status
string, whatever the request was, in all three HTTP-serving variants. -/
theorem c8_health_fixed (r : Request) (st : RandState) (t0 : Nat) :
    (App.healthHandler r st).response = ⟨200, "상태: 정상\n"⟩ ∧
    (AppTraced.healthHandler r st t0).response = ⟨200, "상태: 정상\n"⟩ ∧
    (Receiver.healthHandler r st t0).response = ⟨200, "수신 서버: 상태: 정상\n"⟩ :=
  ⟨rfl, rfl, rfl⟩

/-- C10: under identical random draws, each handler of the untraced app
variant returns the same response as the corresponding handler of the
traced app variant, consumes the random source identically and sleeps the
same amount: the instrumentation changes only span emission. -/
theorem c10_untraced_matches_traced (route : Route) (r : Request) (st : RandState) (t0 : Nat) :
    (App.handle route r st).response = (AppTraced.handle route r st t0).response ∧
    (App.handle route r st).rand.stream = (AppTraced.handle route r st t0).rand.stream ∧
    (App.handle route r st).rand.idx = (AppTraced.handle route r st t0).rand.idx ∧
    (App.handle route r st).sleptMs = (AppTraced.handle route r st t0).sleptMs := by
  cases route <;>
    refine ⟨?_, ?_, ?_, ?_⟩ <;>
    simp only [App.handle, AppTraced.handle, App.homeHandler, AppTraced.homeHandler,
      App.healthHandler, AppTraced.healthHandler, App.slowResponseHandler,
      AppTraced.slowResponseHandler, App.errorHandler, AppTraced.errorHandler, randIntn] <;>
    (try split) <;>
    rfl

/-- C5: the sequence of `/error` statuses is a deterministic function of
the initial random-generator state alone: two runs from the same state,
whatever requests and entry times each invocation carries, produce the same
200/500 sequence. -/
theorem c5_error_sequence_deterministic (st : RandState) (in1 in2 : List (Request × Nat))
    (h : in1.length = in2.length) :
    AppTraced.errorStatuses st in1 = AppTraced.errorStatuses st in2 := by
  induction in1 generalizing st in2 with
  | nil =>
    cases in2 with
    | nil => rfl
    | cons b bs => simp at h
  | cons a as ih =>
    cases in2 with
    | nil => simp at h
    | cons b bs =>
      obtain ⟨r1, t1⟩ := a
      obtain ⟨r2, t2⟩ := b
      simp only [AppTraced.errorStatuses, AppTraced.errorHandler, randIntn]
      split <;>
        exact congrArg _ (ih _ _ (by simpa using h))

/-- C5 witness: ten `/error` calls with all-zero draws yield the same
status sequence as ten calls with entirely different requests and times. -/
theorem c5_error_sequence_deterministic_witness :
    AppTraced.errorStatuses zeroStream (List.replicate 10 (⟨"GET", "/error"⟩, 0)) =
      AppTraced.errorStatuses zeroStream
        [(⟨"POST", "/a"⟩, 1), (⟨"GET", "/b"⟩, 2), (⟨"PUT", "/c"⟩, 3), (⟨"GET", "/d"⟩, 4),
          (⟨"HEAD", "/e"⟩, 5), (⟨"GET", "/f"⟩, 6), (⟨"GET", "/g"⟩, 7), (⟨"GET", "/h"⟩, 8),
          (⟨"GET", "/i"⟩, 9), (⟨"GET", "/j"⟩, 10)] :=
  c5_error_sequence_deterministic zeroStream _ _ (by simp)

/-- C1 counterexample: a generator tick executed after `RECEIVER_ENDPOINT`
changed uses the changed value, not the value a startup read (unset
environment, hence the default `http://localhost:8081`) would have
captured: the peer base URL is re-read from the environment on every tick,
not once at process start. -/
theorem c1_counterexample :
    (Sender.generateDummyTraces envChanged okBuild okNet zeroStream 0).1.receiverEndpoint ≠
      getenvOr envAtStart "RECEIVER_ENDPOINT" "http://localhost:8081" := by
  decide

theorem initTracerWith_tempoEndpoint (sn : String) (env : String → String)
    (mkExporter : Nat → String → Except String Unit) (mkResource : Except String Unit)
    (cfg : TracerConfig) (h : initTracerWith sn env mkExporter mkResource = .ok cfg) :
    cfg.tempoEndpoint = getenvOr env "TEMPO_ENDPOINT" "tempo:4317" := by
  unfold initTracerWith at h
  dsimp only at h
  split at h
  · exact absurd h (by simp)
  · split at h
    · exact absurd h (by simp)
    · cases h
      rfl

/-- C1 amended: `TEMPO_ENDPOINT` is read exactly once, by `initTracer` at
process start (default `tempo:4317`), and the captured value is never
modified by later operations; `RECEIVER_ENDPOINT`, however, is read from
the environment afresh on every generator tick, substituting the default
`http://localhost:8081` each time, so ticks observe environment changes
made after startup. -/
theorem c1_amended_config_reads (env0 envk : String → String)
    (build : String → Except String Unit) (net : String → Except String Nat)
    (mkExporter : Nat → String → Except String Unit) (mkResource : Except String Unit)
    (s : Sender.ProcState) (st : RandState) (t : Nat) :
    (Sender.tick envk build net s t).1.tempoEndpoint = s.tempoEndpoint ∧
    (Sender.tick envk build net s t).2.receiverEndpoint =
      getenvOr envk "RECEIVER_ENDPOINT" "http://localhost:8081" ∧
    (∀ ps : Sender.ProcState, Sender.startup env0 mkExporter mkResource st = .ok ps →
      ps.tempoEndpoint = getenvOr env0 "TEMPO_ENDPOINT" "tempo:4317") := by
  refine ⟨rfl, gdt_receiverEndpoint envk build net s.rand t, ?_⟩
  intro ps hps
  unfold Sender.startup Sender.initTracer at hps
  split at hps
  · exact absurd hps (by simp)
  · rename_i x cfg heq
    cases hps
    exact initTracerWith_tempoEndpoint "monitoring-test-sender" env0 mkExporter mkResource cfg heq

/-- C1 amended witness: at concrete oracles, a tick leaves the captured
collector endpoint unchanged, reads the changed peer value, and startup
captures the default collector endpoint from an unset environment. -/
theorem c1_amended_config_reads_witness :
    (Sender.tick envChanged okBuild okNet ⟨"tempo:4317", zeroStream⟩ 0).1.tempoEndpoint =
        (⟨"tempo:4317", zeroStream⟩ : Sender.ProcState).tempoEndpoint ∧
    (Sender.tick envChanged okBuild okNet ⟨"tempo:4317", zeroStream⟩ 0).2.receiverEndpoint =
      getenvOr envChanged "RECEIVER_ENDPOINT" "http://localhost:8081" ∧
    (⟨"tempo:4317", zeroStream⟩ : Sender.ProcState).tempoEndpoint =
      getenvOr envAtStart "TEMPO_ENDPOINT" "tempo:4317" := by
  have h := c1_amended_config_reads envAtStart envChanged okBuild okNet
    (fun _ _ => .ok ()) (.ok ()) ⟨"tempo:4317", zeroStream⟩ zeroStream 0
  exact ⟨h.1, h.2.1, h.2.2 ⟨"tempo:4317", zeroStream⟩ (by rfl)⟩

/-- C6: if the single OTLP exporter-construction attempt fails at startup,
the receiver's `initTracer` returns the wrapped error (no second attempt,
no fallback transport is consulted) and `main` terminates fatally: neither
the HTTP server nor any generator is ever started. -/
theorem c6_exporter_failure_fatal (env : String → String)
    (mkExporter : Nat → String → Except String Unit) (mkResource : Except String Unit)
    (e : String)
    (h : mkExporter 0 (getenvOr env "TEMPO_ENDPOINT" "tempo:4317") = .error e) :
    Receiver.initTracer env mkExporter mkResource =
      .error ("OTLP exporter 생성 실패: " ++ e) ∧
    Receiver.main env mkExporter mkResource =
      ⟨some ("트레이서 초기화 실패: " ++ ("OTLP exporter 생성 실패: " ++ e)),
        false, false, 8081⟩ := by
  have h1 : Receiver.initTracer env mkExporter mkResource =
      .error ("OTLP exporter 생성 실패: " ++ e) := by
    unfold Receiver.initTracer initTracerWith
    dsimp only
    rw [h]
  refine ⟨h1, ?_⟩
  unfold Receiver.main
  rw [h1]

/-- Exporter construction that fails on the first attempt but would succeed
on a second one (which the code never makes). -/
def failFirstExporter : Nat → String → Except String Unit :=
  fun n _ => if n = 0 then .error "연결 실패" else .ok ()

/-- C6 witness: with an unset environment and an exporter whose first
construction attempt fails, the receiver exits fatally without starting
anything, even though a retry would have succeeded. -/
theorem c6_exporter_failure_fatal_witness :
    Receiver.initTracer envAtStart failFirstExporter (.ok ()) =
      .error ("OTLP exporter 생성 실패: " ++ "연결 실패") ∧
    Receiver.main envAtStart failFirstExporter (.ok ()) =
      ⟨some ("트레이서 초기화 실패: " ++ ("OTLP exporter 생성 실패: " ++ "연결 실패")),
        false, false, 8081⟩ :=
  c6_exporter_failure_fatal envAtStart failFirstExporter (.ok ()) "연결 실패" (by rfl)

/-- C7: the generator started by the sender's `main` fires at the fixed
5-second period (tick k is delivered at 5000·(k+1) ms); each tick opens
exactly one span, picks its path from the fixed two-element list by the
uniform draw, and issues the GET against the configured peer base URL
concatenated with that path; and a loop iteration always continues
(`loopStep` answers `some` whatever the build and network oracles do), so
failures are swallowed and the loop never terminates. -/
theorem c7_periodic_generator (env : Nat → String → String)
    (build : String → Except String Unit) (net : String → Except String Nat)
    (s : Sender.ProcState) (k t : Nat) :
    Sender.mainTickTime k = 5000 * (k + 1) ∧
    (Sender.tick (env k) build net s t).2.spans.length = 1 ∧
    (Sender.tick (env k) build net s t).2.path ∈ senderEndpoints ∧
    (Sender.tick (env k) build net s t).2.reqURL =
      (Sender.tick (env k) build net s t).2.receiverEndpoint ++
        (Sender.tick (env k) build net s t).2.path ∧
    (Sender.tick (env k) build net s t).2.receiverEndpoint =
      getenvOr (env k) "RECEIVER_ENDPOINT" "http://localhost:8081" ∧
    (Sender.loopStep env build net (s, k)).isSome = true :=
  ⟨rfl, gdt_spans_length _ _ _ _ _, gdt_path_mem _ _ _ _ _,
    gdt_reqURL _ _ _ _ _, gdt_receiverEndpoint _ _ _ _ _, rfl⟩

/-- C9: on the successful-initialisation path the sender's `main` starts
the periodic generator at the 5-second interval, starts no HTTP server,
and enters the unconditional `for { }` busy loop: every iteration
continues, so `main` never returns normally and in particular the deferred
tracer-provider `Shutdown` never executes on this path. -/
theorem c9_sender_never_returns :
    Sender.mainAfterInit.generatorStarted = true ∧
    Sender.mainAfterInit.serverStarted = false ∧
    Sender.mainAfterInit.generatorIntervalMs = 5000 ∧
    (∀ n, Sender.busyLoopIter n = some ()) ∧
    ¬ Sender.mainReturnsNormally ∧
    ¬ Sender.shutdownExecuted := by
  have hiter : ∀ n, Sender.busyLoopIter n = some () := by
    intro n
    induction n with
    | zero => rfl
    | succ m ih => simp [Sender.busyLoopIter, ih, Sender.busyLoopStep]
  have hret : ¬ Sender.mainReturnsNormally := by
    rintro ⟨n, hn⟩
    rw [hiter n] at hn
    exact Option.noConfusion hn
  exact ⟨rfl, rfl, rfl, hiter, hret, hret⟩
